import Mathlib

/-!
Verification of the provisioning orchestrator in `start.py` against its
natural-language specification.  The Python source is shallowly embedded:
each resource-creation function becomes a pure Lean definition recording
the observable arguments of the cloud calls it makes, and the `cleanup`
routine and `main` driver become explicit state-passing functions over a
modelled cloud control plane.
-/

namespace Start

/-- A resource tag, as in the boto3 TagSpecifications entries:
`{"Key": ..., "Value": ...}`. -/
structure Tag where
  key : String
  value : String
deriving DecidableEq, Repr

/-- Source line 13: `APP_NAME = "acs-assignment"`. -/
def APP_NAME : String := "acs-assignment"

/-- The EC2 key pair resource produced by `createKeyPair`
(source lines 31-66): its name and its tag list. -/
structure KeyPairRes where
  key_name : String
  tags : List Tag
deriving DecidableEq, Repr

/-- `createKeyPair` (source lines 31-66): `KeyName=f"{name}-key"` and a
TagSpecifications list holding only the `ID` tag (lines 47-57); no
`Name` tag is attached. -/
def createKeyPair (name id : String) : KeyPairRes :=
  { key_name := name ++ "-key"
    tags := [⟨"ID", id⟩] }

/-- A CIDR block `a.b.c.d/mask`, the structured form of the strings the
source passes to the cloud API (e.g. `"10.0.0.0/16"`). -/
structure Cidr where
  a : Nat
  b : Nat
  c : Nat
  d : Nat
  mask : Nat
deriving DecidableEq, Repr

/-- The VPC resource produced by `createVpc` (source lines 69-103). -/
structure VpcRes where
  cidr_block : Cidr
  tags : List Tag
deriving DecidableEq, Repr

/-- `createVpc` (source lines 69-103): tags `Name = f"{name}-vpc"` and
`ID = id`. -/
def createVpc (name id : String) (cidr : Cidr) : VpcRes :=
  { cidr_block := cidr
    tags := [⟨"Name", name ++ "-vpc"⟩, ⟨"ID", id⟩] }

/-- The internet gateway produced by `createGateway`
(source lines 151-190). -/
structure GatewayRes where
  tags : List Tag
deriving DecidableEq, Repr

/-- `createGateway` (source lines 151-190): tags `Name = f"{name}-gateway"`
and `ID = id`. -/
def createGateway (name id : String) : GatewayRes :=
  { tags := [⟨"Name", name ++ "-gateway"⟩, ⟨"ID", id⟩] }

/-- One subnet created by `createSubnets` (source lines 193-256).
`az` is the availability-zone index: the source passes
`AvailabilityZoneId=f"euw1-az{i+1}"`, modelled by the index `i+1`.
`cidr` is the structured form of the `CidrBlock` string
`f"{cidrStart}.{k}.0/24"`. -/
structure SubnetRes where
  az : Nat
  cidr : Cidr
  tags : List Tag
deriving DecidableEq, Repr

/-- Source line 211:
`cidrStart = re.sub(r"([.]\d+){2}([/]\d+){1}", "", vpc.cidr_block)`.
On a CIDR string `a.b.c.d/mask` the pattern matches exactly the suffix
`.c.d/mask` (an earlier match attempt at `.b.c` fails because it is not
followed by `/`), so the substitution strips the last two octets and the
mask, leaving `a.b` — modelled structurally as the pair of the first two
octets. -/
def cidrStart (c : Cidr) : Nat × Nat := (c.a, c.b)

/-- `createSubnets` (source lines 193-256): the loop `for i in range(3)`
fills positions `i` of the 6-slot list with a public subnet of CIDR
`f"{cidrStart}.{i+1}.0/24"` and positions `i+3` with a private subnet of
CIDR `f"{cidrStart}.{i+4}.0/24"`, both in availability zone `i+1`, so the
returned list is the three public subnets followed by the three private
ones. -/
def createSubnets (name id : String) (vpc : VpcRes) : List SubnetRes :=
  let s := cidrStart vpc.cidr_block
  ((List.range 3).map fun i =>
    { az := i + 1
      cidr := ⟨s.1, s.2, i + 1, 0, 24⟩
      tags := [⟨"Name", name ++ "-public-subnet-" ++ toString (i + 1)⟩,
               ⟨"ID", id⟩] })
  ++ ((List.range 3).map fun i =>
    { az := i + 1
      cidr := ⟨s.1, s.2, i + 4, 0, 24⟩
      tags := [⟨"Name", name ++ "-private-subnet-" ++ toString (i + 1)⟩,
               ⟨"ID", id⟩] })

/-- One entry of an `authorize_ingress` call's `IpPermissions`
(source lines 295-331). -/
structure IpPermission where
  fromPort : Nat
  toPort : Nat
  ipProtocol : String
  cidrIp : String
  description : String
deriving DecidableEq, Repr

/-- The security group produced by `createSecurityGroups`
(source lines 259-333), with the ingress rules authorized on it in call
order. -/
structure SecurityGroupRes where
  group_name : String
  tags : List Tag
  ingress : List IpPermission
deriving DecidableEq, Repr

/-- `createSecurityGroups` (source lines 259-333): creates the group and
then issues three `authorize_ingress` calls, for TCP 80, TCP 443 and
TCP 22, each with source range `0.0.0.0/0`. -/
def createSecurityGroups (name id : String) : SecurityGroupRes :=
  { group_name := name ++ "-security-group"
    tags := [⟨"Name", name ++ "-security"⟩, ⟨"ID", id⟩]
    ingress :=
      [⟨80, 80, "tcp", "0.0.0.0/0", "Allow HTTP access."⟩,
       ⟨443, 443, "tcp", "0.0.0.0/0", "Allow HTTPs access."⟩,
       ⟨22, 22, "tcp", "0.0.0.0/0",
        "Allow SSH access for configuration of the EC2 instances."⟩] }

/-- The target group produced by `createTargetGroup`
(source lines 336-365). -/
structure TargetGroupRes where
  name : String
  protocol : String
  port : Nat
  tags : List Tag
deriving DecidableEq, Repr

/-- `createTargetGroup` (source lines 336-365): note the `Name` tag value
at line 357 is `f"{name}-gateway"`, not `f"{name}-target-group"`. -/
def createTargetGroup (name id : String) : TargetGroupRes :=
  { name := name ++ "-target-group"
    protocol := "HTTP"
    port := 80
    tags := [⟨"Name", name ++ "-gateway"⟩, ⟨"ID", id⟩] }

/-- A security group as seen through `vpc.security_groups.all()`
(source lines 438-441). -/
structure SgInfo where
  group_name : String
  group_id : String
deriving DecidableEq, Repr

/-- A subnet as seen through `vpc.subnets.all()` (source lines 443-446):
its id and its tag list as returned by the provider. -/
structure SubnetInfo where
  subnet_id : String
  tags : List Tag
deriving DecidableEq, Repr

/-- The VPC's queried collections used by `createLoadBalancer`. -/
structure VpcView where
  vpc_id : String
  security_groups : List SgInfo
  subnets : List SubnetInfo
deriving DecidableEq, Repr

/-- `p` occurs at the start of `l`. -/
def charsStart : List Char → List Char → Bool
  | [], _ => true
  | _ :: _, [] => false
  | p :: ps, x :: xs => p == x && charsStart ps xs

/-- Python's `pat in text` substring test. -/
def strContains (text pat : String) : Bool :=
  text.toList.tails.any fun t => charsStart pat.toList t

/-- `subnet.tags[i]["Value"]` (source lines 445 and 389); created subnets
always carry exactly the two tags `Name` and `ID`, so indices 0 and 1 are
the only accesses the source makes. -/
def tagValueAt (tags : List Tag) (i : Nat) : String :=
  ((tags.get? i).map Tag.value).getD ""

/-- Source line 445: `"public" in subnet.tags[0]["Value"] or "public" in
subnet.tags[1]["Value"]`. -/
def isPublicTagged (s : SubnetInfo) : Bool :=
  strContains (tagValueAt s.tags 0) "public"
    || strContains (tagValueAt s.tags 1) "public"

/-- Failure of `createLoadBalancer`: if no security group has
`group_name != "default"`, the loop at lines 438-441 never assigns
`secGroup` and line 451 raises `UnboundLocalError`. -/
inductive LbError where
  | noSecurityGroup
deriving DecidableEq, Repr

/-- The load balancer produced by `createLoadBalancer`
(source lines 422-485). -/
structure LoadBalancerRes where
  name : String
  subnets : List String
  security_groups : List String
  tags : List Tag
deriving DecidableEq, Repr

/-- `createLoadBalancer` (source lines 422-485): picks the first security
group whose name is not `"default"` (raising if none exists), collects
the ids of every subnet whose first or second tag value contains
`"public"`, and calls `create_load_balancer` with that subnet list —
whatever its length — and a tag list holding only the `ID` tag
(lines 454-459). -/
def createLoadBalancer (name id : String) (vpc : VpcView) :
    Except LbError LoadBalancerRes :=
  match vpc.security_groups.find? (fun sg => sg.group_name != "default") with
  | none => .error .noSecurityGroup
  | some sg =>
    .ok { name := name ++ "-load-balancer"
          subnets := (vpc.subnets.filter isPublicTagged).map SubnetInfo.subnet_id
          security_groups := [sg.group_id]
          tags := [⟨"ID", id⟩] }

/-- One cloud-API invocation made by `cleanup` (source lines 534-575):
either a `delete()` on the resource `rid` or a `detach_from_vpc` of the
gateway `rid`. -/
inductive Op where
  | delete (rid : String)
  | detach (rid : String)
deriving DecidableEq, Repr

/-- Outcome of running a sequence of cloud calls: the remaining cloud
state (existing resource ids), the calls invoked in order — including a
final failing call, if any — and whether every call succeeded. -/
structure RunResult where
  final : List String
  trace : List Op
  ok : Bool
deriving DecidableEq, Repr

/-- Execute cloud calls in order against the control plane.  A call on a
resource that no longer exists raises (the not-found error of the
provider), as does a call on a resource in `broken` (a provider-side
failure); a raise ends execution immediately — this is the semantics of
the single `try` block wrapping the whole body of `cleanup`
(source lines 551-573).  A successful `delete` removes the resource. -/
def runOps (broken : List String) : List Op → List String → RunResult
  | [], st => ⟨st, [], true⟩
  | .delete rid :: rest, st =>
    if rid ∈ st ∧ rid ∉ broken then
      let r := runOps broken rest (st.filter (fun x => x != rid))
      ⟨r.final, .delete rid :: r.trace, r.ok⟩
    else ⟨st, [.delete rid], false⟩
  | .detach rid :: rest, st =>
    if rid ∈ st ∧ rid ∉ broken then
      let r := runOps broken rest st
      ⟨r.final, .detach rid :: r.trace, r.ok⟩
    else ⟨st, [.detach rid], false⟩

/-- A gateway as seen through `vpc.internet_gateways.all()`
(source line 560). -/
structure GatewayInfo where
  id : String
deriving DecidableEq, Repr

/-- A route table as seen through `vpc.route_tables.all()`
(source line 567); `has_tags` models the `hasattr(route, "tags")` check
at line 568 (True for every real boto3 route-table object, which always
exposes the attribute). -/
structure RouteTableInfo where
  id : String
  has_tags : Bool
deriving DecidableEq, Repr

/-- The VPC object handed to `cleanup`, carrying the collections its
loops query. -/
structure VpcCleanupView where
  vpc_id : String
  security_groups : List SgInfo
  internet_gateways : List GatewayInfo
  subnets : List String
  route_tables : List RouteTableInfo
deriving DecidableEq, Repr

/-- The sequence of cloud calls `cleanup` (source lines 550-571) makes,
in program order: `key.delete()` if `key != None`; then, if
`vpc != None`, delete every non-default security group, detach and
delete every gateway, delete every subnet, delete every route table with
a `tags` attribute, and finally delete the VPC itself.  The `.all()`
collection queries are live lookups, so they return only resources that
exist in the current cloud state `st`. -/
def cleanupOps (key : Option KeyPairRes) (vpc : Option VpcCleanupView)
    (st : List String) : List Op :=
  (match key with
   | some k => [Op.delete k.key_name]
   | none => []) ++
  (match vpc with
   | none => []
   | some v =>
     ((v.security_groups.filter
        (fun sg => st.contains sg.group_id && sg.group_name != "default")).map
        (fun sg => Op.delete sg.group_id)) ++
     ((v.internet_gateways.filter (fun g => st.contains g.id)).flatMap
        (fun g => [Op.detach g.id, Op.delete g.id])) ++
     ((v.subnets.filter st.contains).map Op.delete) ++
     ((v.route_tables.filter (fun rt => st.contains rt.id && rt.has_tags)).map
        (fun rt => Op.delete rt.id)) ++
     [Op.delete v.vpc_id])

/-- `cleanup` (source lines 534-575): runs the deletion sequence inside
one `try` block; the broad `except Exception` at line 572 turns any
raise into `success = False` and skips everything after the raising
call. -/
def cleanup (key : Option KeyPairRes) (vpc : Option VpcCleanupView)
    (existing broken : List String) : RunResult :=
  runOps broken (cleanupOps key vpc existing) existing

/-- The resource ids targeted by the `delete` calls of a trace, in
order. -/
def deletedIds (t : List Op) : List String :=
  t.filterMap fun op =>
    match op with
    | .delete r => some r
    | .detach _ => none

/-- Scanning the call sequence left to right, no `delete` of `gid` is
met before a `detach` of `gid`: the executable form of "the detach of a
gateway precedes its delete". -/
def noDelBeforeDetach (gid : String) : List Op → Bool
  | [] => true
  | Op.delete rid :: t =>
    if rid == gid then false else noDelBeforeDetach gid t
  | Op.detach rid :: t =>
    if rid == gid then true else noDelBeforeDetach gid t

/-- The step functions `main` (source lines 591-608) invokes, named. -/
inductive StepId where
  | keyPair
  | vpc
  | gateway
  | routeTable
  | subnets
  | securityGroups
  | launchConfig
  | targetGroup
  | loadBalancer
  | autoScaler
deriving DecidableEq, Repr

/-- The invocation order of the step functions in `main`
(source lines 593-608). -/
def mainOrder : List StepId :=
  [.keyPair, .vpc, .gateway, .routeTable, .subnets, .securityGroups,
   .launchConfig, .targetGroup, .loadBalancer, .autoScaler]

/-- Whether the invocation of step `s` raises.  `env s = true` means the
collaborating cloud call of step `s` succeeds.  The load-balancer case
is unconditional: source line 607 calls
`createLoadBalancer(APP_NAME, CREATION_ID, vpc)` with three arguments,
but the definition at line 422 requires the fourth positional parameter
`targetGroup`, so Python raises `TypeError` at the call site before the
step body can run, whatever the collaborator would do. -/
def stepRaises (env : StepId → Bool) : StepId → Bool
  | .loadBalancer => true
  | s => !(env s)

/-- Execute a step list in order; the first raising step aborts the rest
(the single `try` block of `main`, lines 591-610).  Returns the steps
completed before the raise and the raising step, if any. -/
def pipelineGo (env : StepId → Bool) : List StepId → List StepId × Option StepId
  | [] => ([], none)
  | s :: rest =>
    if stepRaises env s then ([], some s)
    else
      let r := pipelineGo env rest
      (s :: r.1, r.2)

/-- `main`'s provisioning phase (source lines 591-608). -/
def runPipeline (env : StepId → Bool) : List StepId × Option StepId :=
  pipelineGo env mainOrder

/-- The handles `main` hands to the compensator on failure: source line
614 calls `cleanup(key, vpc)`, so of all the completed steps only the
key-pair and network handles are passed on — `launchConfig`,
`targetGroup`, `loadBalancer` and `autoScaler` are not arguments of the
call (even though `cleanup`'s docstring at lines 542-547 documents
`launchConfig`, `targetGroup` and `autoScaler` parameters, its signature
at line 534 lacks them). -/
def handedToCleanup (completed : List StepId) : List StepId :=
  completed.filter fun s => s == StepId.keyPair || s == StepId.vpc

/-- The all-successful collaborator: every cloud call of every step
succeeds. -/
def envAll : StepId → Bool := fun _ => true

/-! ## Helper lemmas about the execution model -/

theorem runOps_final_subset (broken : List String) :
    ∀ (ops : List Op) (st : List String), (runOps broken ops st).final ⊆ st := by
  intro ops
  induction ops with
  | nil => intro st; simp [runOps]
  | cons op rest ih =>
    intro st
    cases op with
    | delete rid =>
      simp only [runOps]
      split
      · exact (ih _).trans (List.filter_subset' _)
      · exact fun x hx => hx
    | detach rid =>
      simp only [runOps]
      split
      · exact ih _
      · exact fun x hx => hx

theorem runOps_ok_trace (broken : List String) :
    ∀ (ops : List Op) (st : List String),
      (runOps broken ops st).ok = true → (runOps broken ops st).trace = ops := by
  intro ops
  induction ops with
  | nil => intro st _; simp [runOps]
  | cons op rest ih =>
    intro st
    cases op with
    | delete rid =>
      simp only [runOps]
      split
      · intro h; simp only [List.cons.injEq, true_and]; exact ih _ h
      · intro h; simp at h
    | detach rid =>
      simp only [runOps]
      split
      · intro h; simp only [List.cons.injEq, true_and]; exact ih _ h
      · intro h; simp at h

theorem runOps_ok_removed (broken : List String) :
    ∀ (ops : List Op) (st : List String) (rid : String),
      (runOps broken ops st).ok = true → Op.delete rid ∈ ops →
      rid ∉ (runOps broken ops st).final := by
  intro ops
  induction ops with
  | nil => intro st rid _ hmem; simp at hmem
  | cons op rest ih =>
    intro st rid
    cases op with
    | delete rid' =>
      simp only [runOps]
      split
      · intro hok hmem
        rcases List.mem_cons.mp hmem with heq | htail
        · cases heq
          intro hfin
          have := runOps_final_subset broken rest _ hfin
          simp at this
        · exact ih _ rid hok htail
      · intro hok _; simp at hok
    | detach rid' =>
      simp only [runOps]
      split
      · intro hok hmem
        rcases List.mem_cons.mp hmem with heq | htail
        · exact absurd heq (by simp)
        · exact ih _ rid hok htail
      · intro hok _; simp at hok

theorem runOps_fail_of_missing (broken : List String) :
    ∀ (ops : List Op) (st : List String) (rid : String),
      Op.delete rid ∈ ops → rid ∉ st → (runOps broken ops st).ok = false := by
  intro ops
  induction ops with
  | nil => intro st rid hmem; simp at hmem
  | cons op rest ih =>
    intro st rid hmem hnot
    cases op with
    | delete rid' =>
      simp only [runOps]
      split
      · rename_i hcond
        rcases List.mem_cons.mp hmem with heq | htail
        · cases heq; exact absurd hcond.1 hnot
        · refine ih _ rid htail ?_
          intro hin
          exact hnot (List.filter_subset' _ hin)
      · rfl
    | detach rid' =>
      simp only [runOps]
      split
      · rcases List.mem_cons.mp hmem with heq | htail
        · exact absurd heq (by simp)
        · exact ih _ rid htail hnot
      · rfl

theorem noDelBeforeDetach_runOps (broken : List String) (gid : String) :
    ∀ (ops : List Op) (st : List String),
      noDelBeforeDetach gid ops = true →
      noDelBeforeDetach gid (runOps broken ops st).trace = true := by
  intro ops
  induction ops with
  | nil => intro st _; simp [runOps, noDelBeforeDetach]
  | cons op rest ih =>
    intro st h
    cases op with
    | delete rid =>
      simp only [noDelBeforeDetach] at h
      by_cases hrid : (rid == gid) = true
      · simp [hrid] at h
      · simp only [hrid, if_neg, Bool.not_eq_true] at h
        simp only [runOps]
        split
        · simpa [noDelBeforeDetach, hrid] using ih _ (by simpa [hrid] using h)
        · simp [noDelBeforeDetach, hrid]
    | detach rid =>
      simp only [noDelBeforeDetach] at h
      by_cases hrid : (rid == gid) = true
      · simp only [runOps]
        split
        · simp [noDelBeforeDetach, hrid]
        · simp [noDelBeforeDetach, hrid]
      · simp only [hrid, if_neg, Bool.not_eq_true] at h
        simp only [runOps]
        split
        · simpa [noDelBeforeDetach, hrid] using ih _ (by simpa [hrid] using h)
        · simp [noDelBeforeDetach, hrid]

theorem noDelBeforeDetach_append_skip (gid : String) :
    ∀ (A B : List Op),
      (∀ op ∈ A, ∀ r, (op = Op.delete r ∨ op = Op.detach r) → r ≠ gid) →
      noDelBeforeDetach gid (A ++ B) = noDelBeforeDetach gid B := by
  intro A
  induction A with
  | nil => intro B _; rfl
  | cons op rest ih =>
    intro B hfree
    cases op with
    | delete rid =>
      have hr : rid ≠ gid := hfree _ (by simp) rid (Or.inl rfl)
      simp only [List.cons_append, noDelBeforeDetach]
      rw [if_neg (by simpa using hr)]
      exact ih B fun op hop => hfree op (by simp [hop])
    | detach rid =>
      have hr : rid ≠ gid := hfree _ (by simp) rid (Or.inr rfl)
      simp only [List.cons_append, noDelBeforeDetach]
      rw [if_neg (by simpa using hr)]
      exact ih B fun op hop => hfree op (by simp [hop])

theorem noDelBeforeDetach_gateway_section (gid : String) :
    ∀ (gs : List GatewayInfo) (B : List Op),
      (∃ g ∈ gs, g.id = gid) →
      noDelBeforeDetach gid
        ((gs.flatMap fun g => [Op.detach g.id, Op.delete g.id]) ++ B) = true := by
  intro gs
  induction gs with
  | nil => intro B h; simp at h
  | cons g rest ih =>
    intro B h
    by_cases hg : g.id = gid
    · simp [List.flatMap_cons, noDelBeforeDetach, hg]
    · have hne : (g.id == gid) = false := by simpa using hg
      rcases h with ⟨g', hg', hid⟩
      rcases List.mem_cons.mp hg' with heq | htail
      · cases heq; exact absurd hid hg
      · have hrec := ih B ⟨g', htail, hid⟩
        simpa [List.flatMap_cons, noDelBeforeDetach, hne,
          List.append_assoc] using hrec

theorem pipelineGo_sublist (env : StepId → Bool) :
    ∀ (l : List StepId), List.Sublist (pipelineGo env l).1 l := by
  intro l
  induction l with
  | nil => simp [pipelineGo]
  | cons s rest ih =>
    simp only [pipelineGo]
    split
    · exact List.nil_sublist _
    · exact List.Sublist.cons₂ s ih

theorem pipelineGo_completed_takeWhile (env : StepId → Bool) :
    ∀ (l : List StepId),
      (pipelineGo env l).1 = l.takeWhile fun s => !stepRaises env s := by
  intro l
  induction l with
  | nil => rfl
  | cons s rest ih =>
    simp only [pipelineGo, List.takeWhile_cons]
    by_cases h : stepRaises env s = true
    · simp [h]
    · simp only [Bool.not_eq_true] at h
      simp [h, ih]

theorem pipelineGo_err_find (env : StepId → Bool) :
    ∀ (l : List StepId), (pipelineGo env l).2 = l.find? (stepRaises env) := by
  intro l
  induction l with
  | nil => rfl
  | cons s rest ih =>
    simp only [pipelineGo, List.find?_cons]
    by_cases h : stepRaises env s = true
    · simp [h]
    · simp only [Bool.not_eq_true] at h
      simp [h, ih]

/-! ## Concrete scenarios used by counterexamples and witnesses -/

/-- A network with a non-default security group and two subnets, both
tagged `private` — zero public-tagged subnets. -/
def noPublicVpc : VpcView :=
  { vpc_id := "vpc-1"
    security_groups := [⟨"acs-assignment-security-group", "sg-12"⟩]
    subnets :=
      [⟨"subnet-1", [⟨"Name", "acs-assignment-private-subnet-1"⟩, ⟨"ID", "run-1"⟩]⟩,
       ⟨"subnet-2", [⟨"Name", "acs-assignment-private-subnet-2"⟩, ⟨"ID", "run-1"⟩]⟩] }

/-- A network with two public-tagged and two private-tagged subnets, as
in the spec's selection-correctness scenario. -/
def mixedVpc : VpcView :=
  { vpc_id := "vpc-2"
    security_groups := [⟨"default", "sg-0"⟩, ⟨"acs-assignment-security-group", "sg-13"⟩]
    subnets :=
      [⟨"subnet-a", [⟨"Name", "acs-assignment-public-subnet-1"⟩, ⟨"ID", "run-1"⟩]⟩,
       ⟨"subnet-b", [⟨"Name", "acs-assignment-public-subnet-2"⟩, ⟨"ID", "run-1"⟩]⟩,
       ⟨"subnet-c", [⟨"Name", "acs-assignment-private-subnet-1"⟩, ⟨"ID", "run-1"⟩]⟩,
       ⟨"subnet-d", [⟨"Name", "acs-assignment-private-subnet-2"⟩, ⟨"ID", "run-1"⟩]⟩] }

/-- The key-pair handle of the standard partial run. -/
def runKey : KeyPairRes := ⟨"key-1", [⟨"ID", "run-1"⟩]⟩

/-- The VPC, as `cleanup` sees it, of a partial run that created (in
this order, per `main` lines 593-601) the key pair, the VPC, a gateway,
a route table, six subnets and a security group. -/
def runVpc : VpcCleanupView :=
  { vpc_id := "vpc-1"
    security_groups := [⟨"acs-assignment-security-group", "sg-1"⟩]
    internet_gateways := [⟨"igw-1"⟩]
    subnets := ["subnet-1", "subnet-2", "subnet-3", "subnet-4", "subnet-5", "subnet-6"]
    route_tables := [⟨"rtb-1", true⟩] }

/-- The cloud state after that partial run: every created resource
exists. -/
def runExisting : List String :=
  ["key-1", "vpc-1", "igw-1", "rtb-1", "subnet-1", "subnet-2", "subnet-3",
   "subnet-4", "subnet-5", "subnet-6", "sg-1"]

/-- The handles of that run in creation order (`main` lines 593-601):
key pair, VPC, gateway, route table, the six subnets in creation order,
security group. -/
def creationOrder : List String :=
  ["key-1", "vpc-1", "igw-1", "rtb-1", "subnet-1", "subnet-2", "subnet-3",
   "subnet-4", "subnet-5", "subnet-6", "sg-1"]

/-- A cleanup input for the idempotence scenario: a network with one
subnet. -/
def c4Vpc : VpcCleanupView :=
  { vpc_id := "vpc-9"
    security_groups := []
    internet_gateways := []
    subnets := ["subnet-9"]
    route_tables := [] }

/-- A cleanup input whose security-group delete fails while a subnet is
still to be deleted. -/
def c1Vpc : VpcCleanupView :=
  { vpc_id := "vpc-1"
    security_groups := [⟨"acs-assignment-security-group", "sg-1"⟩]
    internet_gateways := []
    subnets := ["subnet-1"]
    route_tables := [] }

/-! ## Claim theorems -/

/-- C9: for every network whose CIDR block has the form `A.B.x.y/z`,
`createSubnets` returns exactly 6 subnets: for each availability-zone
index `i` in `{1,2,3}`, a public-named subnet with CIDR `A.B.i.0/24`
(positions 0-2) and a private-named subnet with CIDR `A.B.(i+3).0/24`
(positions 3-5), each placed in availability zone `i`. -/
theorem c9_createSubnets (name id : String) (a b x y z : Nat) (tg : List Tag) :
    createSubnets name id { cidr_block := ⟨a, b, x, y, z⟩, tags := tg } =
      [⟨1, ⟨a, b, 1, 0, 24⟩,
        [⟨"Name", name ++ "-public-subnet-" ++ toString (1 : Nat)⟩, ⟨"ID", id⟩]⟩,
       ⟨2, ⟨a, b, 2, 0, 24⟩,
        [⟨"Name", name ++ "-public-subnet-" ++ toString (2 : Nat)⟩, ⟨"ID", id⟩]⟩,
       ⟨3, ⟨a, b, 3, 0, 24⟩,
        [⟨"Name", name ++ "-public-subnet-" ++ toString (3 : Nat)⟩, ⟨"ID", id⟩]⟩,
       ⟨1, ⟨a, b, 4, 0, 24⟩,
        [⟨"Name", name ++ "-private-subnet-" ++ toString (1 : Nat)⟩, ⟨"ID", id⟩]⟩,
       ⟨2, ⟨a, b, 5, 0, 24⟩,
        [⟨"Name", name ++ "-private-subnet-" ++ toString (2 : Nat)⟩, ⟨"ID", id⟩]⟩,
       ⟨3, ⟨a, b, 6, 0, 24⟩,
        [⟨"Name", name ++ "-private-subnet-" ++ toString (3 : Nat)⟩, ⟨"ID", id⟩]⟩] := by
  rfl

/-- C10: the security-policy step authorizes exactly three ingress
rules, TCP 80, TCP 443 and TCP 22, each open to `0.0.0.0/0`, and no
others. -/
theorem c10_ingress (name id : String) :
    (createSecurityGroups name id).ingress =
      [⟨80, 80, "tcp", "0.0.0.0/0", "Allow HTTP access."⟩,
       ⟨443, 443, "tcp", "0.0.0.0/0", "Allow HTTPs access."⟩,
       ⟨22, 22, "tcp", "0.0.0.0/0",
        "Allow SSH access for configuration of the EC2 instances."⟩] := by
  rfl

/-- C5 counterexample: at the concrete run (`name = "acs-assignment"`,
`id = "run-1"`) the key pair carries no `Name` tag at all, the target
group's `Name` tag is `acs-assignment-gateway` (not
`acs-assignment-target-group`), and the load balancer carries no `Name`
tag either — so the claim that all three carry a correctly formed
`Name` tag is false. -/
theorem c5_counterexample :
    ((createKeyPair "acs-assignment" "run-1").tags.all
      (fun t => t.key != "Name")) = true ∧
    (createTargetGroup "acs-assignment" "run-1").tags =
      [⟨"Name", "acs-assignment-gateway"⟩, ⟨"ID", "run-1"⟩] ∧
    "acs-assignment-gateway" ≠ "acs-assignment-target-group" ∧
    createLoadBalancer "acs-assignment" "run-1" noPublicVpc =
      .ok ⟨"acs-assignment-load-balancer", [], ["sg-12"], [⟨"ID", "run-1"⟩]⟩ ∧
    ([Tag.mk "ID" "run-1"].all (fun t => t.key != "Name")) = true := by
  refine ⟨by decide, by decide, by decide, ?_, by decide⟩
  rfl

/-- C5 amended: every embedded resource carries the run-ID tag, and the
network and gateway carry well-formed `Name` tags; but the key pair
carries only the ID tag, the target group's `Name` tag value is
`<deployment>-gateway`, and a load balancer, whenever created, carries
only the ID tag. -/
theorem c5_amended (name id : String) (cidr : Cidr) :
    Tag.mk "ID" id ∈ (createKeyPair name id).tags ∧
    (∀ t ∈ (createKeyPair name id).tags, t.key ≠ "Name") ∧
    (createVpc name id cidr).tags = [⟨"Name", name ++ "-vpc"⟩, ⟨"ID", id⟩] ∧
    (createGateway name id).tags = [⟨"Name", name ++ "-gateway"⟩, ⟨"ID", id⟩] ∧
    (createTargetGroup name id).tags = [⟨"Name", name ++ "-gateway"⟩, ⟨"ID", id⟩] ∧
    Tag.mk "ID" id ∈ (createSecurityGroups name id).tags ∧
    (∀ s ∈ createSubnets name id { cidr_block := cidr, tags := [] },
      Tag.mk "ID" id ∈ s.tags) ∧
    (∀ vpcv lb, createLoadBalancer name id vpcv = Except.ok lb →
      lb.tags = [⟨"ID", id⟩]) := by
  refine ⟨by simp [createKeyPair], ?_, rfl, rfl, rfl, by simp [createSecurityGroups], ?_, ?_⟩
  · intro t ht
    simp [createKeyPair] at ht
    simp [ht]
  · intro s hs
    simp only [createSubnets, List.mem_append, List.mem_map, List.mem_range] at hs
    rcases hs with ⟨i, hi, rfl⟩ | ⟨i, hi, rfl⟩ <;> simp
  · intro vpcv lb hlb
    simp only [createLoadBalancer] at hlb
    rcases hfind : vpcv.security_groups.find? (fun sg => sg.group_name != "default") with
      _ | sg
    · rw [hfind] at hlb; cases hlb
    · rw [hfind] at hlb
      cases hlb
      rfl

/-- C5 amended witness: the load-balancer clause applied at a concrete
input. -/
theorem c5_amended_witness :
    (LoadBalancerRes.mk "acs-assignment-load-balancer" [] ["sg-12"]
      [⟨"ID", "run-1"⟩]).tags = [⟨"ID", "run-1"⟩] :=
  (c5_amended "acs-assignment" "run-1" ⟨10, 0, 0, 0, 16⟩).2.2.2.2.2.2.2
    noPublicVpc _ rfl

/-- C3 counterexample: on a network with zero public-tagged subnets the
load-balancer step does not fail with a `SelectionError` — it proceeds
and creates the load balancer with an empty subnet list. -/
theorem c3_counterexample :
    createLoadBalancer "acs-assignment" "run-1" noPublicVpc =
      .ok ⟨"acs-assignment-load-balancer", [], ["sg-12"], [⟨"ID", "run-1"⟩]⟩ ∧
    (createLoadBalancer "acs-assignment" "run-1" noPublicVpc).isOk = true := by
  exact ⟨rfl, rfl⟩

/-- C3 amended: subnet selection is by the explicit predicate "the
first or second tag value contains the substring `public`" (never
positional), and the selected subnets are exactly the predicate's
matches; but when zero subnets match, the step does not fail — it
proceeds with an empty subnet list. -/
theorem c3_amended (name id : String) (vpcv : VpcView)
    (hsg : ∃ sg ∈ vpcv.security_groups, sg.group_name ≠ "default") :
    ∃ lb, createLoadBalancer name id vpcv = Except.ok lb ∧
      (∀ sid, sid ∈ lb.subnets ↔
        ∃ s ∈ vpcv.subnets, s.subnet_id = sid ∧ isPublicTagged s = true) ∧
      ((∀ s ∈ vpcv.subnets, isPublicTagged s = false) → lb.subnets = []) := by
  rcases hfind : vpcv.security_groups.find? (fun sg => sg.group_name != "default") with
    _ | sg
  · rcases hsg with ⟨sg, hmem, hne⟩
    have := List.find?_eq_none.mp hfind sg hmem
    simp [hne] at this
  · refine ⟨{ name := name ++ "-load-balancer"
              subnets := (vpcv.subnets.filter isPublicTagged).map SubnetInfo.subnet_id
              security_groups := [sg.group_id]
              tags := [⟨"ID", id⟩] }, by simp [createLoadBalancer, hfind], ?_, ?_⟩
    · intro sid
      simp only [List.mem_map, List.mem_filter]
      constructor
      · rintro ⟨s, ⟨hs, hp⟩, rfl⟩
        exact ⟨s, hs, rfl, hp⟩
      · rintro ⟨s, hs, rfl, hp⟩
        exact ⟨s, ⟨hs, hp⟩, rfl⟩
    · intro hnone
      simp only [List.map_eq_nil_iff, List.filter_eq_nil_iff]
      intro s hs
      simp [hnone s hs]

/-- C3 amended witness: applied to the four-subnet network of the
spec's selection scenario, which has a non-default security group. -/
theorem c3_amended_witness :
    ∃ lb, createLoadBalancer "acs-assignment" "run-1" mixedVpc = Except.ok lb ∧
      (∀ sid, sid ∈ lb.subnets ↔
        ∃ s ∈ mixedVpc.subnets, s.subnet_id = sid ∧ isPublicTagged s = true) ∧
      ((∀ s ∈ mixedVpc.subnets, isPublicTagged s = false) → lb.subnets = []) :=
  c3_amended "acs-assignment" "run-1" mixedVpc
    ⟨⟨"acs-assignment-security-group", "sg-13"⟩, by decide, by decide⟩

/-- C1 counterexample: when the security-group delete fails, the
Compensator does not continue to the remaining handles — the subnet is
never deleted and remains in the cloud state (it does return `false`,
but the claimed continuation and aggregation do not happen). -/
theorem c1_counterexample :
    (cleanup none (some c1Vpc) ["sg-1", "subnet-1", "vpc-1"] ["sg-1"]).ok = false ∧
    Op.delete "subnet-1" ∉
      (cleanup none (some c1Vpc) ["sg-1", "subnet-1", "vpc-1"] ["sg-1"]).trace ∧
    "subnet-1" ∈
      (cleanup none (some c1Vpc) ["sg-1", "subnet-1", "vpc-1"] ["sg-1"]).final := by
  decide

/-- C1 amended: if any deletion fails, the Compensator stops at that
failure (the remaining handles are skipped, not aggregated) and returns
`false`; it returns `true` only when every planned deletion was invoked
and its resource removed. -/
theorem c1_amended (key : Option KeyPairRes) (vpc : Option VpcCleanupView)
    (existing broken : List String)
    (hok : (cleanup key vpc existing broken).ok = true) :
    (cleanup key vpc existing broken).trace = cleanupOps key vpc existing ∧
    ∀ rid, Op.delete rid ∈ cleanupOps key vpc existing →
      rid ∉ (cleanup key vpc existing broken).final :=
  ⟨runOps_ok_trace broken _ existing hok,
   fun _ hmem => runOps_ok_removed broken _ existing _ hok hmem⟩

/-- C1 amended witness: a fully successful compensation run invokes the
whole planned call sequence. -/
theorem c1_amended_witness :
    (cleanup (some runKey) (some runVpc) runExisting []).trace =
      cleanupOps (some runKey) (some runVpc) runExisting :=
  (c1_amended (some runKey) (some runVpc) runExisting [] (by decide)).1

theorem deletedIds_append (A B : List Op) :
    deletedIds (A ++ B) = deletedIds A ++ deletedIds B :=
  List.filterMap_append A B _

theorem deletedIds_gw (gs : List GatewayInfo) :
    deletedIds (gs.flatMap fun g => [Op.detach g.id, Op.delete g.id]) =
      gs.map GatewayInfo.id := by
  induction gs with
  | nil => rfl
  | cons g t ih =>
    show g.id :: deletedIds (t.flatMap fun g => [Op.detach g.id, Op.delete g.id]) =
      g.id :: t.map GatewayInfo.id
    rw [ih]

theorem deletedIds_deleteMap {α : Type} (f : α → String) (l : List α) :
    deletedIds (l.map fun x => Op.delete (f x)) = l.map f := by
  induction l with
  | nil => rfl
  | cons x t ih =>
    show f x :: deletedIds (t.map fun x => Op.delete (f x)) = f x :: t.map f
    rw [ih]

theorem deletedIds_deleteMapId (l : List String) :
    deletedIds (l.map Op.delete) = l := by
  induction l with
  | nil => rfl
  | cons x t ih =>
    show x :: deletedIds (t.map Op.delete) = x :: t
    rw [ih]

theorem deletedIds_single (r : String) : deletedIds [Op.delete r] = [r] := rfl

/-- C2 counterexample: for the standard partial run (handles created in
the order key pair, VPC, gateway, route table, six subnets, security
group — `main` lines 593-601), compensation does not delete in reverse
creation order: the very first delete hits the first-created handle
(the key pair), not the last-created one. -/
theorem c2_counterexample :
    deletedIds (cleanup (some runKey) (some runVpc) runExisting []).trace ≠
      creationOrder.reverse ∧
    (deletedIds (cleanup (some runKey) (some runVpc) runExisting []).trace).head? =
      some "key-1" ∧
    creationOrder.head? = some "key-1" := by
  decide

/-- C2 amended: a fully successful compensation deletes the key pair
first, then the network's resources grouped by kind — non-default
security groups, gateways, subnets, tagged route tables — in each
group's query order (not reverse creation order), and the network
last. -/
theorem c2_amended (key : Option KeyPairRes) (v : VpcCleanupView)
    (existing broken : List String)
    (hok : (cleanup key (some v) existing broken).ok = true) :
    deletedIds (cleanup key (some v) existing broken).trace =
      (match key with | some k => [k.key_name] | none => []) ++
      ((v.security_groups.filter
          (fun sg => existing.contains sg.group_id &&
            sg.group_name != "default")).map SgInfo.group_id) ++
      ((v.internet_gateways.filter
          (fun g => existing.contains g.id)).map GatewayInfo.id) ++
      (v.subnets.filter existing.contains) ++
      ((v.route_tables.filter
          (fun rt => existing.contains rt.id && rt.has_tags)).map
          RouteTableInfo.id) ++
      [v.vpc_id] := by
  have htr := runOps_ok_trace broken (cleanupOps key (some v) existing) existing hok
  show deletedIds (runOps broken (cleanupOps key (some v) existing) existing).trace = _
  rw [htr]
  cases key <;>
    simp only [cleanupOps, List.nil_append, List.append_assoc, deletedIds_append,
      deletedIds_gw, deletedIds_deleteMap, deletedIds_deleteMapId, deletedIds_single]

/-- C2 amended witness: the grouped-by-kind deletion order at the
standard partial run. -/
theorem c2_amended_witness :
    deletedIds (cleanup (some runKey) (some runVpc) runExisting []).trace =
      (match some runKey with | some k => [k.key_name] | none => []) ++
      ((runVpc.security_groups.filter
          (fun sg => runExisting.contains sg.group_id &&
            sg.group_name != "default")).map SgInfo.group_id) ++
      ((runVpc.internet_gateways.filter
          (fun g => runExisting.contains g.id)).map GatewayInfo.id) ++
      (runVpc.subnets.filter runExisting.contains) ++
      ((runVpc.route_tables.filter
          (fun rt => runExisting.contains rt.id && rt.has_tags)).map
          RouteTableInfo.id) ++
      [runVpc.vpc_id] :=
  c2_amended (some runKey) runVpc runExisting [] (by decide)

/-- C4 counterexample: running compensate a second time on the handles
whose resources the first (fully successful) run already removed
reports a hard failure — the second call returns `false` because the
delete of the no-longer-existing network raises and the broad handler
marks the whole compensation failed. -/
theorem c4_counterexample :
    (cleanup none (some c4Vpc) ["subnet-9", "vpc-9"] []).ok = true ∧
    (cleanup none (some c4Vpc)
      ((cleanup none (some c4Vpc) ["subnet-9", "vpc-9"] []).final) []).ok = false := by
  decide

/-- C4 amended: whenever the network resource no longer exists — in
particular on any second compensation run after a successful first one
— `cleanup` returns `false`: deletion of an absent resource raises and
is not treated as success. -/
theorem c4_amended (key : Option KeyPairRes) (v : VpcCleanupView)
    (existing broken : List String) (habsent : v.vpc_id ∉ existing) :
    (cleanup key (some v) existing broken).ok = false := by
  have hmem : Op.delete v.vpc_id ∈ cleanupOps key (some v) existing := by
    simp [cleanupOps]
  exact runOps_fail_of_missing broken _ existing v.vpc_id hmem habsent

/-- C4 amended witness. -/
theorem c4_amended_witness :
    (cleanup none (some c4Vpc) ["subnet-9"] []).ok = false :=
  c4_amended none c4Vpc ["subnet-9"] [] (by decide)

theorem noDelBeforeDetach_append_true (gid : String) (A B : List Op)
    (hfree : ∀ op ∈ A, ∀ r, (op = Op.delete r ∨ op = Op.detach r) → r ≠ gid)
    (hB : noDelBeforeDetach gid B = true) :
    noDelBeforeDetach gid (A ++ B) = true := by
  rw [noDelBeforeDetach_append_skip gid A B hfree]
  exact hB

/-- C7: during compensation, a gateway is never deleted before it has
been detached: in the sequence of cloud calls `cleanup` makes, no
`delete` of the gateway occurs before its `detach` (under the provider
invariant that the gateway's id is not reused by the key pair or a
security group). -/
theorem c7_detach_before_delete (key : Option KeyPairRes) (v : VpcCleanupView)
    (existing broken : List String) (g : GatewayInfo)
    (hmem : g ∈ v.internet_gateways)
    (hex : existing.contains g.id = true)
    (hkey : key.all (fun k => k.key_name != g.id) = true)
    (hsg : v.security_groups.all (fun sg => sg.group_id != g.id) = true) :
    noDelBeforeDetach g.id (cleanup key (some v) existing broken).trace = true := by
  apply noDelBeforeDetach_runOps
  simp only [cleanupOps, List.append_assoc]
  apply noDelBeforeDetach_append_true
  · intro op hop r hr
    cases key with
    | none => simp at hop
    | some k =>
      simp only [List.mem_singleton] at hop
      subst hop
      rcases hr with h | h
      · cases h
        simp only [Option.all] at hkey
        simpa using hkey
      · cases h
  · apply noDelBeforeDetach_append_true
    · intro op hop r hr
      simp only [List.mem_map, List.mem_filter] at hop
      rcases hop with ⟨sg, ⟨hsgmem, _⟩, rfl⟩
      rcases hr with h | h
      · cases h
        have hall := List.all_eq_true.mp hsg sg hsgmem
        simpa using hall
      · cases h
    · exact noDelBeforeDetach_gateway_section g.id _ _
        ⟨g, List.mem_filter.mpr ⟨hmem, hex⟩, rfl⟩

/-- C7 witness: the detach of gateway `igw-1` precedes its delete in the
standard partial run's compensation. -/
theorem c7_witness :
    noDelBeforeDetach (GatewayInfo.mk "igw-1").id
      (cleanup (some runKey) (some runVpc) runExisting []).trace = true :=
  c7_detach_before_delete (some runKey) runVpc runExisting [] ⟨"igw-1"⟩
    (by decide) (by decide) (by decide) (by decide)

theorem pipelineGo_break (env : StepId → Bool) :
    ∀ (l1 : List StepId) (b : StepId) (l2 : List StepId),
      stepRaises env b = true → (pipelineGo env (l1 ++ b :: l2)).1 ⊆ l1 := by
  intro l1
  induction l1 with
  | nil =>
    intro b l2 hb
    simp [pipelineGo, hb]
  | cons a t ih =>
    intro b l2 hb x hx
    simp only [List.cons_append, pipelineGo] at hx
    split at hx
    · simp at hx
    · simp only [List.mem_cons] at hx
      rcases hx with rfl | hx'
      · exact List.mem_cons_self x t
      · exact List.mem_cons_of_mem a (ih b l2 hb hx')

/-- C6: the executed steps always respect the declared order (the
completed list is a sublist of the declared sequence), but the claim
that every step executes fails on every run: source line 607 calls
`createLoadBalancer` without its required `targetGroup` argument, so the
pipeline always raises there — some step always errors, and the
auto-scaler step never executes. -/
theorem c6_pipeline_bug (env : StepId → Bool) :
    ((runPipeline env).2).isSome = true ∧
    ((runPipeline env).1.contains StepId.autoScaler) = false ∧
    List.Sublist (runPipeline env).1 mainOrder := by
  refine ⟨?_, ?_, pipelineGo_sublist env mainOrder⟩
  · rw [runPipeline, pipelineGo_err_find]
    exact List.find?_isSome.mpr ⟨.loadBalancer, by decide, rfl⟩
  · rw [Bool.eq_false_iff]
    intro hcont
    have hmem : StepId.autoScaler ∈ (runPipeline env).1 :=
      List.elem_iff.mp hcont
    have hmo : mainOrder =
        [StepId.keyPair, .vpc, .gateway, .routeTable, .subnets, .securityGroups,
         .launchConfig, .targetGroup] ++ StepId.loadBalancer :: [StepId.autoScaler] := rfl
    rw [runPipeline, hmo] at hmem
    have h := pipelineGo_break env
      [StepId.keyPair, .vpc, .gateway, .routeTable, .subnets, .securityGroups,
       .launchConfig, .targetGroup] StepId.loadBalancer [StepId.autoScaler] rfl hmem
    exact absurd h (by decide)

/-- C8: with every collaborator call succeeding, the run fails at the
load-balancer step after the target-group handle was produced, and the
driver's compensation call (`cleanup(key, vpc)`, source line 614) hands
over only the key-pair and network handles — the target-group handle,
though produced before the failure, is not handed to the Compensator. -/
theorem c8_cleanup_handoff_bug :
    (runPipeline envAll).2 = some StepId.loadBalancer ∧
    (runPipeline envAll).1 =
      [.keyPair, .vpc, .gateway, .routeTable, .subnets, .securityGroups,
       .launchConfig, .targetGroup] ∧
    StepId.targetGroup ∈ (runPipeline envAll).1 ∧
    handedToCleanup (runPipeline envAll).1 = [.keyPair, .vpc] ∧
    StepId.targetGroup ∉ handedToCleanup (runPipeline envAll).1 := by
  decide

end Start
